import Mathlib

/-
Verification of gerar_relatorio.py, a benchmark script that

  - generates (or reuses) a synthetic partitioned Parquet dataset (gerar_dados),
  - writes an in-memory sample table to parquet / csv / duckdb and measures
    write time and on-disk size (medir_gravacao),
  - runs three fixed aggregation queries per format (executar_queries),
  - assembles the measurements in a report (out of scope here).

The embedding models the filesystem as a record of the three artifact
locations, tables as lists of rows, Faker as an abstract stream of draws,
and Python's round(x, nd) idealised as round-half-even on rationals.
-/

namespace Bench

/-- Configuration constant N_LINHAS = 1_000_000 (total synthetic rows). -/
def N_LINHAS : Nat := 1000000

/-- Configuration constant CHUNK = 250_000 (rows per generation chunk). -/
def CHUNK : Nat := 250000

/-- Round-half-even to an integer, the idealised semantics of Python's
round() on an exact rational value. -/
def rhe (q : ℚ) : ℤ :=
  if q - (⌊q⌋ : ℚ) < 1/2 then ⌊q⌋
  else if 1/2 < q - (⌊q⌋ : ℚ) then ⌊q⌋ + 1
  else if ⌊q⌋ % 2 = 0 then ⌊q⌋ else ⌊q⌋ + 1

/-- Python round(x, 2). -/
def round2 (q : ℚ) : ℚ := (rhe (q * 100) : ℚ) / 100

/-- Python round(x, 1). -/
def round1 (q : ℚ) : ℚ := (rhe (q * 10) : ℚ) / 10

/-- The size in megabytes reported by medir_gravacao for an artifact of
`bytes` bytes: round(size/1024/1024, 1). -/
def sizeMB (bytes : Nat) : ℚ := round1 ((bytes : ℚ) / (1024 * 1024))

/-- The raw draws Faker supplies for one generated row: the random_int(1,6)
draw, the random_number(digits=4) draw, and the string-valued draws. -/
structure RowDraws where
  qtdeRaw : Nat
  precoRaw : Nat
  uuid : String
  dataStr : String
  company : String
  produtoSel : String
  nome : String
  cidade : String
  estado : String
deriving DecidableEq, Inhabited

/-- One row of the synthetic vendas table (columns of gerar_dados).
precoUnit is the preco_unitario column. -/
structure Row where
  id_transacao : String
  data : String
  loja : String
  produto : String
  quantidade : Nat
  precoUnit : ℚ
  total : ℚ
  cliente : String
  cidade : String
  estado : String
deriving DecidableEq

/-- A table (pandas DataFrame / one parquet partition) is a list of rows. -/
abbrev Table := List Row

/-- Build one row from its draws, exactly as the generation loop does:
qtde = random_int(1,6), preco = round(random_number(4)/100, 2),
total = round(qtde*preco, 2). -/
def mkRow (d : RowDraws) : Row :=
  let qtde : Nat := 1 + d.qtdeRaw % 6
  let preco : ℚ := round2 (((d.precoRaw % 10000 : Nat) : ℚ) / 100)
  { id_transacao := d.uuid
    data := d.dataStr
    loja := d.company
    produto := d.produtoSel
    quantidade := qtde
    precoUnit := preco
    total := round2 ((qtde : ℚ) * preco)
    cliente := d.nome
    cidade := d.cidade
    estado := d.estado }

/-- The rows of one generated chunk: row indices start..start+n-1 of the
global draw stream. -/
def chunkRows (fake : Nat → RowDraws) (start n : Nat) : Table :=
  (List.range n).map (fun i => mkRow (fake (start + i)))

/-- The generation loop of gerar_dados: while linhas_rest > 0 take
n = min CHUNK rest rows and write them as one partition.  The fuel
argument bounds the iteration count (rest decreases by at least one per
step whenever chunk > 0, so fuel = rest suffices). -/
def partsFuel (fake : Nat → RowDraws) (chunk : Nat) : Nat → Nat → Nat → List Table
  | 0, _, _ => []
  | fuel + 1, start, rest =>
    if rest = 0 then []
    else
      chunkRows fake start (min chunk rest) ::
        partsFuel fake chunk fuel (start + min chunk rest) (rest - min chunk rest)

/-- The list of partition tables gerar_dados writes for a fresh dataset. -/
def partitions (fake : Nat → RowDraws) (chunk total : Nat) : List Table :=
  partsFuel fake chunk total 0 total

/-- The chunk sizes of the generation loop (same loop, lengths only). -/
def chunkSizesFuel (chunk : Nat) : Nat → Nat → List Nat
  | 0, _ => []
  | fuel + 1, rest =>
    if rest = 0 then []
    else min chunk rest :: chunkSizesFuel chunk fuel (rest - min chunk rest)

/-- The sizes of the partitions gerar_dados writes. -/
def chunkSizes (chunk total : Nat) : List Nat := chunkSizesFuel chunk total total

/-- The filesystem locations the script touches: the partitioned parquet
directory, the csv file and the duckdb file.  `none` means the path does
not exist. -/
structure FS where
  parquetDir : Option (List Table)
  csvFile : Option Table
  duckdbFile : Option Table
deriving DecidableEq

/-- The output directory before any artifact exists. -/
def emptyFS : FS := { parquetDir := none, csvFile := none, duckdbFile := none }

/-- gerar_dados: if PARQUET_DIR exists, return unchanged; otherwise write
the full chunked dataset. -/
def gerar_dados (fake : Nat → RowDraws) (fs : FS) : FS :=
  if fs.parquetDir.isSome then fs
  else { fs with parquetDir := some (partitions fake CHUNK N_LINHAS) }

/-- The filesystem operations medir_gravacao performs, in order. -/
inductive Op where
  | removeTree
  | mkdirDir
  | writeParquet
  | writeCsv
  | removeFile
  | createTable
  | computeSize
deriving DecidableEq

/-- Which operations write the artifact itself (the to_parquet, to_csv and
CREATE TABLE ... AS SELECT calls). -/
def isArtifactWrite : Op → Bool
  | Op.writeParquet => true
  | Op.writeCsv => true
  | Op.createTable => true
  | _ => false

/-- medir_gravacao: save df in the given format, returning the updated
filesystem, the trace of operations (each tagged true when it runs inside
the timed region, i.e. between time.time() start and the dur line), and
the reported size in MB.  bytes is the on-disk byte size the filesystem
reports for the artifact (determined by the external libraries).  An
unsupported format assigns no path and the function fails (NameError). -/
def medir_gravacao (df : Table) (fmt : String) (bytes : Nat) (fs : FS) :
    Option (FS × List (Op × Bool) × ℚ) :=
  if fmt = "parquet" then
    some ({ fs with parquetDir := some [df] },
      ((if fs.parquetDir.isSome then [(Op.removeTree, true)] else []) ++
        [(Op.mkdirDir, true), (Op.writeParquet, true), (Op.computeSize, false)],
       sizeMB bytes))
  else if fmt = "csv" then
    some ({ fs with csvFile := some df },
      ([(Op.writeCsv, true), (Op.computeSize, false)], sizeMB bytes))
  else if fmt = "duckdb" then
    some ({ fs with duckdbFile := some df },
      ((if fs.duckdbFile.isSome then [(Op.removeFile, true)] else []) ++
        [(Op.createTable, true), (Op.computeSize, false)],
       sizeMB bytes))
  else none

/-- The three named queries, in the insertion order of the QUERIES dict. -/
def QUERIES : List (String × String) :=
  [("vendas_por_loja",
    "SELECT loja, SUM(total) AS total_loja FROM vendas GROUP BY loja ORDER BY total_loja DESC LIMIT 10"),
   ("ticket_medio_cliente",
    "SELECT cliente, AVG(total) AS ticket_medio FROM vendas GROUP BY cliente ORDER BY ticket_medio DESC LIMIT 10"),
   ("produto_top_qtd",
    "SELECT produto, SUM(quantidade) AS qtd FROM vendas GROUP BY produto ORDER BY qtd DESC LIMIT 10")]

/-- Which source the vendas view of the query session reads from. -/
inductive ViewSrc where
  | parquetGlob
  | csvAuto
deriving DecidableEq

/-- The in-memory DuckDB session state of executar_queries. -/
structure Session where
  vendasView : Option ViewSrc
  attachedDb : Bool
  activeDb : Bool
deriving DecidableEq

/-- The SQL statements executar_queries issues. -/
inductive SqlCmd where
  | createViewParquet
  | createViewCsv
  | attachDb
  | useDb
  | selectQ (sql : String)
deriving DecidableEq

/-- Effect of one statement on the session and the filesystem: CREATE VIEW
and ATTACH/USE change only the in-memory session; the SELECT queries read
through the view and change nothing. -/
def stepCmd (c : SqlCmd) (st : Session × FS) : Session × FS :=
  match c with
  | SqlCmd.createViewParquet => ({ st.1 with vendasView := some ViewSrc.parquetGlob }, st.2)
  | SqlCmd.createViewCsv => ({ st.1 with vendasView := some ViewSrc.csvAuto }, st.2)
  | SqlCmd.attachDb => ({ st.1 with attachedDb := true }, st.2)
  | SqlCmd.useDb => ({ st.1 with activeDb := true }, st.2)
  | SqlCmd.selectQ _ => st

/-- Run a list of statements in order. -/
def runCmds (cs : List SqlCmd) (st : Session × FS) : Session × FS :=
  cs.foldl (fun a c => stepCmd c a) st

/-- The setup statements per format (the source treats every format other
than parquet and csv as duckdb, via its final else branch). -/
def setupCmds (fmt : String) : List SqlCmd :=
  if fmt = "parquet" then [SqlCmd.createViewParquet]
  else if fmt = "csv" then [SqlCmd.createViewCsv]
  else [SqlCmd.attachDb, SqlCmd.useDb]

/-- All statements of one executar_queries call: setup, then the three
queries in QUERIES order. -/
def sessionCmds (fmt : String) : List SqlCmd :=
  setupCmds fmt ++ QUERIES.map (fun p => SqlCmd.selectQ p.2)

/-- executar_queries: open an in-memory session, run the setup and the
query battery, and return the filesystem together with the per-query
latencies.  timing gives the observed wall-clock latency of each query
(external to the code). -/
def executar_queries (fmt : String) (timing : String → ℚ) (fs : FS) :
    FS × List (String × ℚ) :=
  let st := runCmds (sessionCmds fmt)
    ({ vendasView := none, attachedDb := false, activeDb := false }, fs)
  (st.2, QUERIES.map (fun p => (p.1, timing p.1)))

/-- The format list of the main loop. -/
def FORMATS : List String := ["parquet", "csv", "duckdb"]

/-- The sample main loads into RAM: the first partition file of the
parquet dataset (next(PARQUET_DIR.glob(...))). -/
def dfSample (fs : FS) : Table := (fs.parquetDir.getD []).headD []

/-- One iteration of the measurement loop of main: write the sample in
fmt (line 132 passes df_sample in both arms of its conditional), then run
the query battery.  Records the table passed to each write. -/
def mainStep (sample : Table) (bytesOf : String → Nat)
    (timing : String → String → ℚ) (acc : FS × List (String × Table))
    (fmt : String) : FS × List (String × Table) :=
  let df := if fmt = "parquet" then sample else sample
  match medir_gravacao df fmt (bytesOf fmt) acc.1 with
  | some (fs2, _, _) =>
      ((executar_queries fmt (timing fmt) fs2).1, acc.2 ++ [(fmt, df)])
  | none => (acc.1, acc.2 ++ [(fmt, df)])

/-- The pipeline of main: ensure the dataset, load one partition as the
sample, then measure the three formats in order. -/
def mainRun (fake : Nat → RowDraws) (bytesOf : String → Nat)
    (timing : String → String → ℚ) : FS × List (String × Table) :=
  let fs1 := gerar_dados fake emptyFS
  let sample := dfSample fs1
  FORMATS.foldl (mainStep sample bytesOf timing) (fs1, [])

/-- A draw stream whose every element is the default draw (used for
concrete instances). -/
def fake0 : Nat → RowDraws := fun _ => default

/-- A filesystem on which the parquet directory exists. -/
def fsP : FS := { parquetDir := some [[]], csvFile := none, duckdbFile := none }

/-- The property the amended timing claim asserts of an event trace: size
computation is never timed, and each timed operation is either the write
of the artifact or pre-write cleanup (rmtree, mkdir, unlink). -/
def evsOk (l : List (Op × Bool)) : Prop :=
  (Op.computeSize, true) ∉ l ∧ (Op.computeSize, false) ∈ l ∧
    ∀ p ∈ l, p.2 = true →
      (isArtifactWrite p.1 = true ∨ p.1 = Op.removeTree ∨
        p.1 = Op.mkdirDir ∨ p.1 = Op.removeFile)


theorem chunkRows_length (fake : Nat → RowDraws) (start n : Nat) :
    (chunkRows fake start n).length = n := by
  simp [chunkRows]

theorem partsFuel_map_length (fake : Nat → RowDraws) (chunk : Nat) :
    ∀ fuel start rest,
      (partsFuel fake chunk fuel start rest).map List.length =
        chunkSizesFuel chunk fuel rest := by
  intro fuel
  induction fuel with
  | zero => intro start rest; rfl
  | succ m ih =>
      intro start rest
      by_cases h : rest = 0
      · simp [partsFuel, chunkSizesFuel, h]
      · simp [partsFuel, chunkSizesFuel, h, chunkRows_length, ih]

theorem partsFuel_rows (fake : Nat → RowDraws) (chunk : Nat) :
    ∀ fuel start rest t, t ∈ partsFuel fake chunk fuel start rest →
      ∃ s n, t = chunkRows fake s n := by
  intro fuel
  induction fuel with
  | zero => intro start rest t ht; simp [partsFuel] at ht
  | succ m ih =>
      intro start rest t ht
      by_cases h : rest = 0
      · simp [partsFuel, h] at ht
      · simp only [partsFuel, if_neg h, List.mem_cons] at ht
        rcases ht with h1 | h2
        · exact ⟨start, min chunk rest, h1⟩
        · exact ih _ _ t h2

theorem mem_chunkRows (fake : Nat → RowDraws) (s n : Nat) (r : Row)
    (hr : r ∈ chunkRows fake s n) : ∃ d, r = mkRow d := by
  simp only [chunkRows, List.mem_map, List.mem_range] at hr
  obtain ⟨i, _, hi⟩ := hr
  exact ⟨fake (s + i), hi.symm⟩

theorem partitions_cons (fake : Nat → RowDraws) (chunk total : Nat)
    (h : total ≠ 0) :
    partitions fake chunk total =
      chunkRows fake 0 (min chunk total) ::
        partsFuel fake chunk (total - 1) (0 + min chunk total)
          (total - min chunk total) := by
  cases total with
  | zero => exact absurd rfl h
  | succ m => simp [partitions, partsFuel]

theorem runCmds_fs : ∀ (cs : List SqlCmd) (st : Session × FS),
    (runCmds cs st).2 = st.2 := by
  intro cs
  induction cs with
  | nil => intro st; rfl
  | cons c cs ih =>
      intro st
      have : runCmds (c :: cs) st = runCmds cs (stepCmd c st) := rfl
      rw [this, ih]
      cases c <;> rfl

theorem executar_fst (fmt : String) (timing : String → ℚ) (fs : FS) :
    (executar_queries fmt timing fs).1 = fs := by
  simp [executar_queries, runCmds_fs]

theorem medir_parquet (df : Table) (bytes : Nat) (fs : FS) :
    medir_gravacao df "parquet" bytes fs =
      some ({ fs with parquetDir := some [df] },
        ((if fs.parquetDir.isSome then [(Op.removeTree, true)] else []) ++
          [(Op.mkdirDir, true), (Op.writeParquet, true), (Op.computeSize, false)],
         sizeMB bytes)) := rfl

theorem medir_csv (df : Table) (bytes : Nat) (fs : FS) :
    medir_gravacao df "csv" bytes fs =
      some ({ fs with csvFile := some df },
        ([(Op.writeCsv, true), (Op.computeSize, false)], sizeMB bytes)) := rfl

theorem medir_duckdb (df : Table) (bytes : Nat) (fs : FS) :
    medir_gravacao df "duckdb" bytes fs =
      some ({ fs with duckdbFile := some df },
        ((if fs.duckdbFile.isSome then [(Op.removeFile, true)] else []) ++
          [(Op.createTable, true), (Op.computeSize, false)],
         sizeMB bytes)) := rfl

theorem one_le_rhe (q : ℚ) (hq : 1/2 < q) : 1 ≤ rhe q := by
  have hfl : (⌊q⌋ : ℚ) ≤ q := Int.floor_le q
  have hlt : q < ⌊q⌋ + 1 := Int.lt_floor_add_one q
  have hm1 : (-1 : ℚ) < (⌊q⌋ : ℚ) := by linarith
  have hm1z : (-1 : ℤ) < ⌊q⌋ := by exact_mod_cast hm1
  rw [rhe]
  split_ifs with h1 h2 h3
  · have h0 : (0:ℚ) < (⌊q⌋ : ℚ) := by linarith
    have : (0:ℤ) < ⌊q⌋ := by exact_mod_cast h0
    omega
  · omega
  · have hr : q - (⌊q⌋ : ℚ) = 1/2 := le_antisymm (not_lt.mp h2) (not_lt.mp h1)
    have h0 : (0:ℚ) < (⌊q⌋ : ℚ) := by linarith
    have : (0:ℤ) < ⌊q⌋ := by exact_mod_cast h0
    omega
  · omega

theorem sizeMB_pos (b : Nat) (hb : 52429 ≤ b) : 0 < sizeMB b := by
  have hbq : (52429 : ℚ) ≤ (b : ℚ) := by exact_mod_cast hb
  have h1 : (1:ℚ)/2 < (b:ℚ) / (1024 * 1024) * 10 := by
    rw [div_mul_eq_mul_div, lt_div_iff₀ (by norm_num : (0:ℚ) < 1024 * 1024)]
    linarith
  have h2 : (1:ℤ) ≤ rhe ((b:ℚ) / (1024 * 1024) * 10) := one_le_rhe _ h1
  have h3 : (1:ℚ) ≤ (rhe ((b:ℚ) / (1024 * 1024) * 10) : ℚ) := by exact_mod_cast h2
  rw [sizeMB, round1]
  linarith


/-- C1: every row produced by the dataset generator has
total = round(quantity * unit price, 2). -/
theorem c1_row_total_invariant (fake : Nat → RowDraws) (chunk total : Nat)
    (t : Table) (r : Row) (ht : t ∈ partitions fake chunk total) (hr : r ∈ t) :
    r.total = round2 ((r.quantidade : ℚ) * r.precoUnit) := by
  obtain ⟨s, n, rfl⟩ := partsFuel_rows fake chunk total 0 total t ht
  obtain ⟨d, rfl⟩ := mem_chunkRows fake s n r hr
  rfl

/-- Witness for C1 at a concrete one-row dataset. -/
theorem c1_row_total_witness :
    (mkRow (fake0 0)).total =
      round2 (((mkRow (fake0 0)).quantidade : ℚ) * (mkRow (fake0 0)).precoUnit) :=
  c1_row_total_invariant fake0 1 1 [mkRow (fake0 0)] (mkRow (fake0 0))
    (by rw [show partitions fake0 1 1 = [[mkRow (fake0 0)]] from rfl]
        exact List.mem_singleton_self _)
    (List.mem_singleton_self _)

/-- C4: gerar_dados is idempotent: a second call with the same target is a
no-op, and when the dataset already exists the call changes nothing. -/
theorem c4_gerar_dados_idempotent (fake : Nat → RowDraws) (fs : FS) :
    gerar_dados fake (gerar_dados fake fs) = gerar_dados fake fs ∧
      (fs.parquetDir.isSome = true → gerar_dados fake fs = fs) := by
  constructor
  · rcases h : fs.parquetDir with _ | p
    · simp [gerar_dados, h]
    · simp [gerar_dados, h]
  · intro h
    simp [gerar_dados, h]

/-- Witness for C4 on a filesystem where the dataset already exists. -/
theorem c4_gerar_dados_witness : gerar_dados fake0 fsP = fsP :=
  (c4_gerar_dados_idempotent fake0 fsP).2 rfl

/-- C5: for every format, the query runner returns latencies keyed by
exactly the three fixed query names, in QUERIES insertion order. -/
theorem c5_query_keys_fixed (fmt : String) (timing : String → ℚ) (fs : FS) :
    ((executar_queries fmt timing fs).2).map Prod.fst =
      ["vendas_por_loja", "ticket_medio_cliente", "produto_top_qtd"] := rfl

/-- C8: the query runner leaves the stored artifacts unchanged: every
statement it issues reads the filesystem without mutating it. -/
theorem c8_queries_readonly (fmt : String) (timing : String → ℚ) (fs : FS) :
    (executar_queries fmt timing fs).1 = fs := by
  simp [executar_queries, runCmds_fs]

/-- C10: a format outside the three supported values produces no
measurement (no branch assigns the path, the call fails), and for the
three supported values the failure branch is unreachable. -/
theorem c10_unsupported_format (df : Table) (fmt : String) (bytes : Nat) (fs : FS) :
    (fmt ∉ FORMATS → medir_gravacao df fmt bytes fs = none) ∧
      (fmt ∈ FORMATS → (medir_gravacao df fmt bytes fs).isSome = true) := by
  constructor
  · intro h
    simp only [FORMATS, List.mem_cons, List.not_mem_nil, or_false,
      not_or] at h
    obtain ⟨h1, h2, h3⟩ := h
    simp [medir_gravacao, h1, h2, h3]
  · intro h
    simp only [FORMATS, List.mem_cons, List.not_mem_nil, or_false] at h
    rcases h with rfl | rfl | rfl
    · simp [medir_gravacao]
    · simp [medir_gravacao]
    · simp [medir_gravacao]

/-- Witness for C10: the unlisted format xml fails, the listed format csv
succeeds. -/
theorem c10_unsupported_witness :
    ("xml" ∉ FORMATS) ∧ medir_gravacao [] "xml" 0 emptyFS = none ∧
      ("csv" ∈ FORMATS) ∧ (medir_gravacao [] "csv" 0 emptyFS).isSome = true :=
  ⟨by decide, (c10_unsupported_format [] "xml" 0 emptyFS).1 (by decide),
   by decide, (c10_unsupported_format [] "csv" 0 emptyFS).2 (by decide)⟩


theorem mainRun_eq (fake : Nat → RowDraws) (bytesOf : String → Nat)
    (timing : String → String → ℚ) :
    mainRun fake bytesOf timing =
      ({ parquetDir := some [dfSample (gerar_dados fake emptyFS)],
         csvFile := some (dfSample (gerar_dados fake emptyFS)),
         duckdbFile := some (dfSample (gerar_dados fake emptyFS)) },
       [("parquet", dfSample (gerar_dados fake emptyFS)),
        ("csv", dfSample (gerar_dados fake emptyFS)),
        ("duckdb", dfSample (gerar_dados fake emptyFS))]) := by
  simp [mainRun, FORMATS, mainStep, medir_parquet, medir_csv, medir_duckdb,
    executar_fst, gerar_dados, emptyFS, dfSample]

theorem partitions_head (fake : Nat → RowDraws) :
    partitions fake CHUNK N_LINHAS =
      chunkRows fake 0 CHUNK ::
        partsFuel fake CHUNK (N_LINHAS - 1) (0 + CHUNK) (N_LINHAS - CHUNK) := by
  have h := partitions_cons fake CHUNK N_LINHAS (by decide)
  rwa [show min CHUNK N_LINHAS = CHUNK from by decide] at h

theorem dfSample_eq (fake : Nat → RowDraws) :
    dfSample (gerar_dados fake emptyFS) = chunkRows fake 0 CHUNK := by
  rw [show gerar_dados fake emptyFS =
      { parquetDir := some (partitions fake CHUNK N_LINHAS),
        csvFile := none, duckdbFile := none } from rfl]
  simp [dfSample, partitions_head fake]

/-- C6: a fresh gerar_dados call produces partitions whose sizes follow the
chunking loop: they sum to exactly N_LINHAS and each is positive and at
most CHUNK, one partition file per chunk. -/
theorem c6_chunked_generation (fake : Nat → RowDraws) :
    ((gerar_dados fake emptyFS).parquetDir.getD []).map List.length =
        chunkSizes CHUNK N_LINHAS ∧
      (chunkSizes CHUNK N_LINHAS).sum = N_LINHAS ∧
      ∀ n ∈ chunkSizes CHUNK N_LINHAS, 0 < n ∧ n ≤ CHUNK := by
  refine ⟨?_, by decide, by decide⟩
  rw [show gerar_dados fake emptyFS =
      { parquetDir := some (partitions fake CHUNK N_LINHAS),
        csvFile := none, duckdbFile := none } from rfl]
  exact partsFuel_map_length fake CHUNK N_LINHAS 0 N_LINHAS

/-- Witness for C6 at the first chunk size. -/
theorem c6_chunked_generation_witness :
    (250000 ∈ chunkSizes CHUNK N_LINHAS) ∧ (0 < 250000 ∧ 250000 ≤ CHUNK) :=
  ⟨by decide, (c6_chunked_generation fake0).2.2 250000 (by decide)⟩

/-- C2: all three format writes of main are performed on the one in-memory
sample, which is a single partition (CHUNK rows) of the generated dataset,
not the full N_LINHAS-row dataset. -/
theorem c2_same_sample_all_writes (fake : Nat → RowDraws)
    (bytesOf : String → Nat) (timing : String → String → ℚ) :
    (mainRun fake bytesOf timing).2 =
        [("parquet", dfSample (gerar_dados fake emptyFS)),
         ("csv", dfSample (gerar_dados fake emptyFS)),
         ("duckdb", dfSample (gerar_dados fake emptyFS))] ∧
      dfSample (gerar_dados fake emptyFS) ∈
          (gerar_dados fake emptyFS).parquetDir.getD [] ∧
      (dfSample (gerar_dados fake emptyFS)).length = CHUNK ∧
      (((gerar_dados fake emptyFS).parquetDir.getD []).map List.length).sum =
        N_LINHAS := by
  refine ⟨by rw [mainRun_eq], ?_, ?_, ?_⟩
  · rw [dfSample_eq,
      show gerar_dados fake emptyFS =
        { parquetDir := some (partitions fake CHUNK N_LINHAS),
          csvFile := none, duckdbFile := none } from rfl]
    simp only [Option.getD_some, partitions_head fake]
    exact List.mem_cons_self _ _
  · rw [dfSample_eq]; exact chunkRows_length fake 0 CHUNK
  · rw [show gerar_dados fake emptyFS =
        { parquetDir := some (partitions fake CHUNK N_LINHAS),
          csvFile := none, duckdbFile := none } from rfl]
    simp only [Option.getD_some]
    rw [show List.map List.length (partitions fake CHUNK N_LINHAS) =
        chunkSizesFuel CHUNK N_LINHAS N_LINHAS from
      partsFuel_map_length fake CHUNK N_LINHAS 0 N_LINHAS]
    decide

/-- C9: the parquet write of the pipeline replaces the generated dataset
directory by a single partition holding only the sample; since gerar_dados
skips generation when the directory exists, a subsequent run keeps this
truncated CHUNK-row dataset instead of the N_LINHAS-row one. -/
theorem c9_truncated_dataset_reuse (fake : Nat → RowDraws)
    (bytesOf : String → Nat) (timing : String → String → ℚ) :
    ((mainRun fake bytesOf timing).1).parquetDir =
        some [dfSample (gerar_dados fake emptyFS)] ∧
      gerar_dados fake (mainRun fake bytesOf timing).1 =
        (mainRun fake bytesOf timing).1 ∧
      (dfSample (gerar_dados fake emptyFS)).length = CHUNK ∧
      CHUNK ≠ N_LINHAS := by
  refine ⟨by rw [mainRun_eq], ?_, ?_, by decide⟩
  · rw [mainRun_eq]
    simp [gerar_dados]
  · rw [dfSample_eq]; exact chunkRows_length fake 0 CHUNK


theorem evsParquetPre : evsOk
    ([(Op.removeTree, true)] ++
      [(Op.mkdirDir, true), (Op.writeParquet, true), (Op.computeSize, false)]) := by
  unfold evsOk
  decide

theorem evsParquetFresh : evsOk
    ([] ++ [(Op.mkdirDir, true), (Op.writeParquet, true), (Op.computeSize, false)]) := by
  unfold evsOk
  decide

theorem evsCsv : evsOk [(Op.writeCsv, true), (Op.computeSize, false)] := by
  unfold evsOk
  decide

theorem evsDuckdbPre : evsOk
    ([(Op.removeFile, true)] ++
      [(Op.createTable, true), (Op.computeSize, false)]) := by
  unfold evsOk
  decide

theorem evsDuckdbFresh : evsOk
    ([] ++ [(Op.createTable, true), (Op.computeSize, false)]) := by
  unfold evsOk
  decide

theorem sizeMB_100 : sizeMB 100 = 0 := by
  have h : ⌊((100:ℕ):ℚ) / (1024 * 1024) * 10⌋ = 0 := by norm_num
  rw [sizeMB, round1, rhe, h]
  norm_num

/-- C3 counterexample: on a filesystem where the parquet dataset exists,
the parquet branch performs the rmtree of the whole dataset inside the
timed region, and rmtree is not a write of the artifact.  So the claim
that nothing but the write happens inside the timed region is false. -/
theorem c3_timed_region_counterexample :
    (Op.removeTree, true) ∈
        ((medir_gravacao [] "parquet" 0 fsP).map (fun o => o.2.1)).getD [] ∧
      isArtifactWrite Op.removeTree = false := by
  constructor
  · rw [medir_parquet]
    simp [fsP]
  · rfl

/-- C3 amended: the timer is stopped before the on-disk size is summed
(computeSize is never inside the timed region), but the timed region also
contains the pre-write cleanup: removal of an existing parquet directory,
directory creation, and removal of an existing duckdb file. -/
theorem c3_timed_region_amended (df : Table) (fmt : String) (bytes : Nat)
    (fs : FS) (out : FS × List (Op × Bool) × ℚ)
    (h : medir_gravacao df fmt bytes fs = some out) :
    (Op.computeSize, true) ∉ out.2.1 ∧ (Op.computeSize, false) ∈ out.2.1 ∧
      ∀ p ∈ out.2.1, p.2 = true →
        (isArtifactWrite p.1 = true ∨ p.1 = Op.removeTree ∨
          p.1 = Op.mkdirDir ∨ p.1 = Op.removeFile) := by
  rw [medir_gravacao] at h
  split_ifs at h
  all_goals cases h
  exacts [evsParquetPre, evsParquetFresh, evsCsv, evsDuckdbPre, evsDuckdbFresh]

/-- Witness for C3 amended on a concrete csv write. -/
theorem c3_timed_region_witness :
    (Op.computeSize, true) ∉ [(Op.writeCsv, true), (Op.computeSize, false)] ∧
      (Op.computeSize, false) ∈ [(Op.writeCsv, true), (Op.computeSize, false)] ∧
      ∀ p ∈ [(Op.writeCsv, true), (Op.computeSize, false)], p.2 = true →
        (isArtifactWrite p.1 = true ∨ p.1 = Op.removeTree ∨
          p.1 = Op.mkdirDir ∨ p.1 = Op.removeFile) :=
  c3_timed_region_amended [] "csv" 0 emptyFS
    ⟨{ emptyFS with csvFile := some [] },
     [(Op.writeCsv, true), (Op.computeSize, false)], sizeMB 0⟩ rfl

/-- C7 counterexample: a non-empty one-row table whose csv artifact is
100 bytes gets a reported size of round(100/1024/1024, 1) = 0.0, which is
not strictly positive. -/
theorem c7_size_positive_counterexample :
    (medir_gravacao [mkRow (fake0 0)] "csv" 100 emptyFS).map (fun o => o.2.2) =
        some 0 ∧
      ([mkRow (fake0 0)] : Table) ≠ [] ∧ (0 < 100) ∧ ¬ ((0:ℚ) < 0) := by
  refine ⟨?_, by simp, by norm_num, by norm_num⟩
  rw [medir_csv]
  simp [sizeMB_100]

/-- C7 amended: the reported size_megabytes is the artifact byte size
divided by 1024*1024 and rounded half-even to one decimal; it is strictly
positive whenever the artifact is at least 52429 bytes (0.05 MB), though
smaller non-empty artifacts round to 0.0. -/
theorem c7_size_positive_amended (df : Table) (fmt : String) (bytes : Nat)
    (fs : FS) (out : FS × List (Op × Bool) × ℚ)
    (h : medir_gravacao df fmt bytes fs = some out) (hb : 52429 ≤ bytes) :
    0 < out.2.2 := by
  rw [medir_gravacao] at h
  split_ifs at h
  all_goals cases h
  all_goals exact sizeMB_pos bytes hb

/-- Witness for C7 amended on a concrete 60000-byte csv artifact. -/
theorem c7_size_positive_witness : (52429 ≤ 60000) ∧ 0 < sizeMB 60000 :=
  ⟨by decide,
   c7_size_positive_amended [] "csv" 60000 emptyFS
     ⟨{ emptyFS with csvFile := some [] },
      [(Op.writeCsv, true), (Op.computeSize, false)], sizeMB 60000⟩ rfl
     (by decide)⟩

end Bench
